import Mathlib

/-!
Shallow embedding of the adk-design-agent deep-think loop controller and its
versioned-asset tools, with theorems checking the specification's claims.

Sources embedded:
- src/deep_think_loop.py: LoopDecision, ContentReview, the preparation,
  termination and control stages, and the loop wiring (max_iterations = 5).
- src/tools/post_creator_tool.py: the version ledger (get_next_version_number,
  update_asset_version, create_versioned_filename) and the generate_image /
  edit_image tool flows.
- src/agent.py: process_reference_images_callback (reference-image uploads).
- src/wardrobe_design_agent/tools/post_creator_tool.py and agent.py: the
  wardrobe variant of generate_image and its reference-image fallback.

External collaborators (google.adk LoopAgent scheduling, the image model, the
artifact store) are outside the repository; they are modelled by the contracts
the spec gives them (sequential sub-agents, stop on escalate, bounded passes;
a chunk stream that may or may not carry an image; a save that returns a
version or fails), with the nondeterministic parts passed in as explicit
oracle arguments.
-/

/-- A session-state entry as the Python code sees it: the key may be absent
from the state dict, may hold Python None, or may hold a value. -/
inductive PyVal (α : Type) where
  | absent
  | pynone
  | val (a : α)
  deriving DecidableEq

/-- Structured output of the LoopControlAgent (src/deep_think_loop.py lines 15-18). -/
structure LoopDecision where
  should_continue : Bool
  reason : String
  deriving DecidableEq

/-- Structured output of the ContentReviewAgent (src/deep_think_loop.py lines 20-28). -/
structure ContentReview where
  adheres_to_request : Bool
  visual_appeal : Bool
  obvious_issues : Bool
  typos_in_text : Bool
  feedback_addressed : Bool
  specific_issues : List String
  improvement_suggestions : List String
  deriving DecidableEq

/-- The run-time shapes the loop_decision state key can hold: a structured
LoopDecision, a raw dict whose should_continue / reason keys may be missing,
or any other malformed value. LoopTerminationAgent branches on these shapes
with isinstance checks (src/deep_think_loop.py lines 125-130). -/
inductive DecisionVal where
  | structured (d : LoopDecision)
  | dict (should_continue : Option Bool) (reason : Option String)
  | otherVal
  deriving DecidableEq

/-- The run-time shapes the content_review state key can hold: the empty string
the preparation agent writes before iteration 1, or a filled review. -/
inductive ReviewVal where
  | emptyString
  | filled (r : ContentReview)
  deriving DecidableEq

/-- The deep-think-scoped session state keys (spec section 3 and the keys the
loop code reads and writes in src/deep_think_loop.py and src/agent.py). -/
structure SessionState where
  deep_think_mode : PyVal Bool
  deep_think_iteration : PyVal Int
  iteration_count : PyVal Int
  previous_feedback : PyVal Unit
  original_deep_think_prompt : PyVal String
  original_prompt : PyVal String
  content_review : PyVal ReviewVal
  loop_decision : PyVal DecisionVal
  last_generated_image : PyVal String
  deriving DecidableEq

/-- state.get(key, d) for an integer-valued key. The loop never stores None at
an integer key, so Python None is read as the default here as well. -/
def PyVal.getIntD : PyVal Int → Int → Int
  | .val n, _ => n
  | _, d => d

/-- Python truthiness of an integer state entry: absent, None and 0 are falsy. -/
def PyVal.intTruthy : PyVal Int → Bool
  | .val n => n != 0
  | _ => false

/-- Python truthiness of the previous_feedback entry: the code only ever stores
the empty dict there, which is falsy, as are absent and None. -/
def PyVal.unitTruthy : PyVal Unit → Bool
  | _ => false

/-- A fresh session: no deep-think key has been written yet. -/
def initialSession : SessionState :=
  { deep_think_mode := .absent
    deep_think_iteration := .absent
    iteration_count := .absent
    previous_feedback := .absent
    original_deep_think_prompt := .absent
    original_prompt := .absent
    content_review := .absent
    loop_decision := .absent
    last_generated_image := .absent }

/-- DeepThinkPreparationAgent._run_async_impl (src/deep_think_loop.py lines
174-204): initialize falsy counters to 0 and previous_feedback to the empty
dict, compute the 1-based iteration number for the context message, and clear
content_review to the empty string on iteration 1. The computed iteration
number is only interpolated into the context message; it is never written back
to deep_think_iteration. -/
def prepStep (st : SessionState) : SessionState :=
  let st1 := if st.deep_think_iteration.intTruthy then st
             else { st with deep_think_iteration := .val 0 }
  let st2 := if st1.iteration_count.intTruthy then st1
             else { st1 with iteration_count := .val 0 }
  let st3 := if st2.previous_feedback.unitTruthy then st2
             else { st2 with previous_feedback := .val () }
  let itc := st3.deep_think_iteration.getIntD 0 + 1
  if itc > 1 then st3 else { st3 with content_review := .val .emptyString }

/-- The decision LoopTerminationAgent consumes (src/deep_think_loop.py lines
119-135): read loop_decision, defaulting to continue when it is missing or
malformed, then force a stop when the iteration count has reached 4. -/
def terminationDecision (loop_decision : PyVal DecisionVal) (iteration_count : Int) :
    LoopDecision :=
  let base : LoopDecision :=
    match loop_decision with
    | .val (.structured d) => d
    | .val (.dict sc r) =>
      { should_continue := sc.getD true, reason := r.getD "No reason provided" }
    | _ => { should_continue := true, reason := "No decision found" }
  if iteration_count ≥ 4 then
    { should_continue := false, reason := "Maximum iterations reached" }
  else base

/-- LoopTerminationAgent._run_async_impl (src/deep_think_loop.py lines 118-158):
on continue, yield a plain event; on stop, yield an escalating event whose
state_delta resets the five deep-think keys. Returns the state after the pass
and whether the loop escalated. -/
def terminationStep (st : SessionState) : SessionState × Bool :=
  let d := terminationDecision st.loop_decision (st.deep_think_iteration.getIntD 0)
  if d.should_continue then (st, false)
  else
    ({ st with
        deep_think_mode := .val false
        deep_think_iteration := .val 0
        original_deep_think_prompt := .pynone
        content_review := .pynone
        loop_decision := .pynone }, true)

/-- The two tool calls the ContentGenAgent instruction chooses between. -/
inductive GenMode where
  | create
  | edit
  deriving DecidableEq

/-- The generate-vs-edit dispatch rule of the ContentGenAgent instruction
(src/deep_think_loop.py line 37): deep_think_iteration = 1 selects
generate_image (CREATE); any other value selects edit_image (EDIT). -/
def genDispatch (deep_think_iteration : Int) : GenMode :=
  if deep_think_iteration = 1 then .create else .edit

/-- The per-pass outputs of the LLM-backed stages, supplied as an oracle:
the PromptCaptureAgent output, the filename stored by the generation tool (if
it succeeded), the ContentReviewAgent verdict, and the LoopControlAgent
verdict as it lands in session state. -/
structure PassOracle where
  captured_prompt : String
  gen_filename : Option String
  review : ContentReview
  decision : DecisionVal

/-- What one pass of the loop did: the deep_think_iteration value the
generation stage dispatched on, the tool it selected, and whether the
termination agent escalated. -/
structure PassTrace where
  dispatch : Int
  mode : GenMode
  escalated : Bool
  deriving DecidableEq

/-- One pass of the DeepThinkLoop sub-agent pipeline (src/deep_think_loop.py
lines 208-219): preparation, prompt capture (writes original_prompt),
generation (dispatching on deep_think_iteration, updating
last_generated_image on success), review (writes content_review), loop
control (writes loop_decision), then the termination check. -/
def runPass (st : SessionState) (o : PassOracle) : SessionState × PassTrace :=
  let st := prepStep st
  let st := { st with original_prompt := .val o.captured_prompt }
  let dti := st.deep_think_iteration.getIntD 0
  let mode := genDispatch dti
  let st := match o.gen_filename with
    | some f => { st with last_generated_image := .val f }
    | none => st
  let st := { st with content_review := .val (.filled o.review) }
  let st := { st with loop_decision := .val o.decision }
  let (st, esc) := terminationStep st
  (st, { dispatch := dti, mode := mode, escalated := esc })

/-- Modelled from the spec: the LoopAgent wrapper is external (google.adk); per
spec sections 2 and 4.5 it runs its sub-agents in order each pass, stops as
soon as a sub-agent escalates, and performs at most max_iterations passes.
The source sets max_iterations = 5 (src/deep_think_loop.py line 218). -/
def runLoop : SessionState → List PassOracle → Nat → SessionState × List PassTrace
  | st, _, 0 => (st, [])
  | st, [], _ + 1 => (st, [])
  | st, o :: os, fuel + 1 =>
    let (st1, tr) := runPass st o
    if tr.escalated then (st1, [tr])
    else
      let (st2, trs) := runLoop st1 os fuel
      (st2, tr :: trs)

/-- A full deep-think invocation: the LoopAgent with max_iterations = 5. -/
def deepThinkRun (st : SessionState) (os : List PassOracle) :
    SessionState × List PassTrace :=
  runLoop st os 5

/-- Abstract binary image content: the tools never inspect the bytes, so an
identifier stands for them. -/
abbrev Img := Nat

/-- Python dict assignment d[k] = v on an insertion-ordered association list
with unique keys: replace the value in place when the key exists, append the
pair otherwise. -/
def setKey {α : Type} : List (String × α) → String → α → List (String × α)
  | [], k, v => [(k, v)]
  | (k1, v1) :: rest, k, v =>
    if k1 = k then (k, v) :: rest else (k1, v1) :: setKey rest k v

/-- Python d.get(k): the value at the first matching key, if any. -/
def lookupKey {α : Type} : List (String × α) → String → Option α
  | [], _ => none
  | (k1, v1) :: rest, k => if k1 = k then some v1 else lookupKey rest k

/-- The version-ledger part of session state (src/tools/post_creator_tool.py):
the asset_versions dict, the asset_filenames dict, and the per-asset
"{asset_name}_history" lists, keyed here by the asset name. -/
structure LedgerState where
  asset_versions : List (String × Int)
  asset_filenames : List (String × String)
  histories : List (String × List (Int × String))
  deriving DecidableEq

def emptyLedger : LedgerState :=
  { asset_versions := [], asset_filenames := [], histories := [] }

/-- get_next_version_number (src/tools/post_creator_tool.py lines 14-19):
current version of the asset, 0 when unknown, plus one. Identical in the
wardrobe variant. -/
def get_next_version_number (st : LedgerState) (asset_name : String) : Int :=
  (lookupKey st.asset_versions asset_name).getD 0 + 1

/-- The asset's current version as the ledger reads it: 0 when unknown. -/
def currentVersion (st : LedgerState) (asset_name : String) : Int :=
  (lookupKey st.asset_versions asset_name).getD 0

/-- The asset's "{asset_name}_history" list: empty when never written. -/
def historyOf (st : LedgerState) (asset_name : String) : List (Int × String) :=
  (lookupKey st.histories asset_name).getD []

/-- update_asset_version (src/tools/post_creator_tool.py lines 21-35): set the
current version and filename for the asset and append {version, filename} to
its history list, creating the dicts and the list when missing. Performs no
validation of the version passed in. Identical in the wardrobe variant. -/
def update_asset_version (st : LedgerState) (asset_name : String) (version : Int)
    (filename : String) : LedgerState :=
  { asset_versions := setKey st.asset_versions asset_name version
    asset_filenames := setKey st.asset_filenames asset_name filename
    histories :=
      setKey st.histories asset_name
        ((lookupKey st.histories asset_name).getD [] ++ [(version, filename)]) }

/-- create_versioned_filename (src/tools/post_creator_tool.py lines 37-39). -/
def create_versioned_filename (asset_name : String) (version : Int)
    (file_extension : String := "png") : String :=
  asset_name ++ "_v" ++ toString version ++ "." ++ file_extension

/-- get_next_version_number as a tool call: the source only reads the state,
so the call returns the computed value and the state exactly as given. -/
def get_next_version_number_call (st : LedgerState) (asset_name : String) :
    Int × LedgerState :=
  (get_next_version_number st asset_name, st)

/-- The tool-facing session state: the version ledger, the session pointers the
tools read and write, the reference-image bookkeeping of the upload callback,
and the artifact store contents (spec section 6: save/load by name). -/
structure ToolState where
  ledger : LedgerState
  last_generated_image : Option String
  current_asset_name : Option String
  latest_reference_image : Option String
  reference_images : List (String × (Nat × Int))
  artifacts : List (String × Img)
  deriving DecidableEq

def initialToolState : ToolState :=
  { ledger := emptyLedger
    last_generated_image := none
    current_asset_name := none
    latest_reference_image := none
    reference_images := []
    artifacts := [] }

/-- Python truthiness of an optional string: None and the empty string are falsy. -/
def optStrTruthy : Option String → Bool
  | none => false
  | some s => s != ""

/-- Inputs of generate_image (src/tools/post_creator_tool.py lines 88-93), with
the pydantic defaults. -/
structure GenerateImageInput where
  prompt : String
  aspect_ratio : Option String := some "1:1"
  text_overlay : Option String := none
  asset_name : String := "marketing_post"
  reference_image_filename : Option String := none

/-- Inputs of edit_image (src/tools/post_creator_tool.py lines 95-99). -/
structure EditImageInput where
  artifact_filename : String
  prompt : String
  asset_name : Option String := none
  reference_image_filename : Option String := none

/-- The reference-filename resolution of generate_image and edit_image
(src/tools/post_creator_tool.py lines 115-119 and 239-243): a truthy input
names the file, with the literal "latest" resolving through the
latest_reference_image state key. -/
def resolveRefFilename (st : ToolState) (reference_image_filename : Option String) :
    Option String :=
  if optStrTruthy reference_image_filename then
    if reference_image_filename = some "latest" then st.latest_reference_image
    else reference_image_filename
  else none

/-- load_reference_image (src/tools/post_creator_tool.py lines 70-82): load the
artifact by filename, None when missing or the load fails. -/
def load_reference_image (st : ToolState) (filename : String) : Option Img :=
  lookupKey st.artifacts filename

/-- The reference part the marketing tools attach (src/tools/post_creator_tool.py
lines 114-126): resolve the filename, then load it when truthy; None when the
input was unset, the resolution produced nothing, or the load found nothing. -/
def resolveReferencePart (st : ToolState) (reference_image_filename : Option String) :
    Option Img :=
  let ref_filename := resolveRefFilename st reference_image_filename
  if optStrTruthy ref_filename then
    match ref_filename with
    | some f => load_reference_image st f
    | none => none
  else none

/-- One chunk of the image-model response stream (spec section 6, Image Model
Collaborator): no usable content, a text part, or an inline image. -/
inductive Chunk where
  | noContent
  | text (t : String)
  | image (i : Img)
  deriving DecidableEq

/-- Outcome of the external model calls inside a tool: some call raised, or the
prompt-rewrite call returned this text and the stream yielded these chunks. -/
inductive ModelOutcome where
  | raise (msg : String)
  | stream (rewritten_prompt : String) (chunks : List Chunk)

/-- Outcome of tool_context.save_artifact (spec section 6, Artifact Store
Collaborator): the version the store assigned, or a raised write error. -/
inductive SaveOutcome where
  | ok (version : Int)
  | err (msg : String)
  deriving DecidableEq

/-- The first image-bearing chunk of the stream, as the tools scan for it:
chunks without content or whose first part is textual are skipped. -/
def firstImage : List Chunk → Option Img
  | [] => none
  | .image i :: _ => some i
  | .noContent :: rest => firstImage rest
  | .text _ :: rest => firstImage rest

/-- A part of the content sent to the image model. -/
inductive GenPart where
  | text (s : String)
  | image (i : Img)
  deriving DecidableEq

/-- The externally visible persistence steps a tool call performs, in order. -/
inductive ToolEvent where
  | saveOk (filename : String) (version : Int)
  | saveErr (filename : String)
  | recorded (asset_name : String) (version : Int) (filename : String)
  deriving DecidableEq

/-- Result of a generate_image / edit_image call: the returned text, the
session state after the call, the persistence events in order, and the content
parts assembled for the model request. -/
structure GenCallResult where
  message : String
  state : ToolState
  events : List ToolEvent
  request_parts : List GenPart
  deriving DecidableEq

/-- generate_image (src/tools/post_creator_tool.py lines 102-213). A raised
model call is caught by the outer handler, which returns the empty string.
Otherwise: resolve and load the optional reference image, assemble the content
parts from the rewritten prompt, allocate the next version and filename, scan
the stream for the first image chunk; when one arrives, save it, and only
after a successful save record the store-assigned version in the ledger and
update the session pointers; a failed save or an imageless stream returns
failure text with the state untouched. -/
def generate_image (st : ToolState) (inputs : GenerateImageInput)
    (model : ModelOutcome) (save : SaveOutcome) : GenCallResult :=
  match model with
  | .raise _ => { message := "", state := st, events := [], request_parts := [] }
  | .stream rewritten chunks =>
    let reference_image_part := resolveReferencePart st inputs.reference_image_filename
    let content_parts := [GenPart.text rewritten] ++
      (match reference_image_part with
       | some i => [GenPart.image i]
       | none => [])
    let version := get_next_version_number st.ledger inputs.asset_name
    let artifact_filename := create_versioned_filename inputs.asset_name version
    match firstImage chunks with
    | some img =>
      match save with
      | .ok v =>
        { message := "Image generated successfully! Saved as artifact: " ++
            artifact_filename ++ " (version " ++ toString v ++ " of " ++
            inputs.asset_name ++ ")"
          state :=
            { st with
                artifacts := setKey st.artifacts artifact_filename img
                ledger := update_asset_version st.ledger inputs.asset_name v artifact_filename
                last_generated_image := some artifact_filename
                current_asset_name := some inputs.asset_name }
          events := [.saveOk artifact_filename v,
                     .recorded inputs.asset_name v artifact_filename]
          request_parts := content_parts }
      | .err e =>
        { message := "Error saving generated image as artifact: " ++ e
          state := st
          events := [.saveErr artifact_filename]
          request_parts := content_parts }
    | none =>
      { message := "No image was generated", state := st, events := []
        request_parts := content_parts }

/-- The asset-name fallback of edit_image (src/tools/post_creator_tool.py line
283): the text before the first "_v" of the filename when it contains one,
else "marketing_post". -/
def fallbackAssetName (artifact_filename : String) : String :=
  let pieces := artifact_filename.splitOn "_v"
  if pieces.length > 1 then pieces.headD "marketing_post" else "marketing_post"

/-- The asset-name determination of edit_image (src/tools/post_creator_tool.py
lines 274-284): the input when truthy, else the current_asset_name session key
when truthy, else the filename fallback. -/
def editAssetName (st : ToolState) (inputs : EditImageInput) : String :=
  if optStrTruthy inputs.asset_name then inputs.asset_name.getD ""
  else if optStrTruthy st.current_asset_name then st.current_asset_name.getD ""
  else fallbackAssetName inputs.artifact_filename

/-- edit_image (src/tools/post_creator_tool.py lines 215-334): load the artifact
to edit (explicit failure text when missing); a raised model call is caught by
the outer handler, which returns the empty string; otherwise assemble the
content parts, determine the asset name, allocate the next version and
filename, scan the stream; on an image chunk save it, and only after a
successful save record the store-assigned version and update the pointers. -/
def edit_image (st : ToolState) (inputs : EditImageInput)
    (model : ModelOutcome) (save : SaveOutcome) : GenCallResult :=
  match lookupKey st.artifacts inputs.artifact_filename with
  | none =>
    { message := "Could not find image artifact: " ++ inputs.artifact_filename
      state := st, events := [], request_parts := [] }
  | some loaded_image_part =>
    match model with
    | .raise _ => { message := "", state := st, events := [], request_parts := [] }
    | .stream _ chunks =>
      let reference_image_part := resolveReferencePart st inputs.reference_image_filename
      let content_parts := [GenPart.image loaded_image_part, GenPart.text inputs.prompt] ++
        (match reference_image_part with
         | some i => [GenPart.image i]
         | none => [])
      let asset_name := editAssetName st inputs
      let version := get_next_version_number st.ledger asset_name
      let edited_artifact_filename := create_versioned_filename asset_name version
      match firstImage chunks with
      | some img =>
        match save with
        | .ok v =>
          { message := "Image edited successfully! Saved as artifact: " ++
              edited_artifact_filename ++ " (version " ++ toString v ++ " of " ++
              asset_name ++ ")"
            state :=
              { st with
                  artifacts := setKey st.artifacts edited_artifact_filename img
                  ledger := update_asset_version st.ledger asset_name v edited_artifact_filename
                  last_generated_image := some edited_artifact_filename
                  current_asset_name := some asset_name }
            events := [.saveOk edited_artifact_filename v,
                       .recorded asset_name v edited_artifact_filename]
            request_parts := content_parts }
        | .err e =>
          { message := "Error saving edited image as artifact: " ++ e
            state := st
            events := [.saveErr edited_artifact_filename]
            request_parts := content_parts }
      | none =>
        { message := "No edited image was generated", state := st, events := []
          request_parts := content_parts }

/-- A record event is justified only when the same filename and version were
saved earlier in the event list: the scan accumulates confirmed saves and
checks each record against them. -/
def recordsJustified (saved : List (String × Int)) : List ToolEvent → Bool
  | [] => true
  | .saveOk f v :: rest => recordsJustified ((f, v) :: saved) rest
  | .saveErr _ :: rest => recordsJustified saved rest
  | .recorded _ v f :: rest => decide ((f, v) ∈ saved) && recordsJustified saved rest

/-- A part of an inbound user message, as the callbacks scan it. -/
inductive MsgPart where
  | textPart (t : String)
  | imagePart (mime_type : String) (i : Img)
  deriving DecidableEq

/-- mime_type.startswith("image/") as the callbacks test it. -/
def mimeIsImage (mime_type : String) : Bool :=
  "image/".data.isPrefixOf mime_type.data

/-- The image search of process_reference_images_callback (src/agent.py lines
96-100): the first part carrying inline data with an image/* mime type. -/
def firstImagePart : List MsgPart → Option (String × Img)
  | [] => none
  | .imagePart m i :: rest =>
    if mimeIsImage m then some (m, i) else firstImagePart rest
  | .textPart _ :: rest => firstImagePart rest

/-- process_reference_images_callback (src/agent.py lines 80-130): when the
latest user message carries an image, save it under
"reference_image_v{count+1}.png", record {version := count+1,
uploaded_version := store version} under that filename, and point
latest_reference_image at it. store_version is the version the artifact store
returned for the save. -/
def process_reference_images_callback (st : ToolState) (parts : List MsgPart)
    (store_version : Int) : ToolState :=
  match firstImagePart parts with
  | none => st
  | some (_, img) =>
    let ref_count := st.reference_images.length + 1
    let filename := "reference_image_v" ++ toString ref_count ++ ".png"
    { st with
        artifacts := setKey st.artifacts filename img
        reference_images := setKey st.reference_images filename (ref_count, store_version)
        latest_reference_image := some filename }

/-- auto_store_reference_images, the wardrobe upload callback
(src/wardrobe_design_agent/agent.py lines 23-47): every inline image of the
request is stored under "reference_{md5 prefix}_{timestamp}.jpg" and
latest_reference_image is pointed at the last one stored. The md5 prefix is
supplied as a function of the image content and the timestamp as a value. -/
def auto_store_reference_images (st : ToolState) (parts : List MsgPart)
    (md5_head : Img → String) (timestamp : Int) : ToolState :=
  match parts with
  | [] => st
  | .textPart _ :: rest => auto_store_reference_images st rest md5_head timestamp
  | .imagePart m i :: rest =>
    let st1 :=
      if mimeIsImage m then
        let filename := "reference_" ++ md5_head i ++ "_" ++ toString timestamp ++ ".jpg"
        { st with
            artifacts := setKey st.artifacts filename i
            latest_reference_image := some filename }
      else st
    auto_store_reference_images st1 rest md5_head timestamp

/-- The wardrobe reference resolution
(src/wardrobe_design_agent/tools/post_creator_tool.py lines 113-118): the
literal "latest" and an unset or empty filename both fall back to the
latest_reference_image session key; any other truthy filename names itself. -/
def wardrobeResolveRef (st : ToolState) (reference_image_filename : Option String) :
    Option String :=
  if reference_image_filename = some "latest" ∨ optStrTruthy reference_image_filename = false then
    st.latest_reference_image
  else reference_image_filename

/-- The reference part the wardrobe generate_image attaches
(src/wardrobe_design_agent/tools/post_creator_tool.py lines 120-127): load the
resolved filename when truthy; a failed or empty load leaves it None. -/
def wardrobeReferencePart (st : ToolState) (reference_image_filename : Option String) :
    Option Img :=
  let ref_filename := wardrobeResolveRef st reference_image_filename
  if optStrTruthy ref_filename then
    match ref_filename with
    | some f => lookupKey st.artifacts f
    | none => none
  else none

/-- The faithful-reproduction prompt of the wardrobe generate_image
(src/wardrobe_design_agent/tools/post_creator_tool.py lines 130-143), used
when a reference image loaded. -/
def wardrobeFaithfulPrompt (prompt : String) (aspect_ratio : Option String) : String :=
  let base := "Create a FAITHFUL reproduction of the garment in the reference image: " ++
    prompt ++
    "\n\nNANO BANANA FAITHFUL REPRODUCTION:\n- Reproduce EXACT garment from reference image\n- Maintain identical design, proportions, details\n- Preserve original color palette and material texture\n- Professional e-commerce white background\n- Studio lighting with clean shadows"
  match aspect_ratio with
  | some a => if a = "" then base else base ++ "\n- Aspect ratio: " ++ a
  | none => base

/-- The regular prompt of the wardrobe generate_image
(src/wardrobe_design_agent/tools/post_creator_tool.py lines 145-149), used
when no reference image is available. -/
def wardrobeRegularPrompt (prompt : String) (aspect_ratio : Option String) : String :=
  let base := "Create a luxury " ++ prompt ++
    " with professional e-commerce photography, white background, studio lighting"
  match aspect_ratio with
  | some a => if a = "" then base else base ++ ", aspect ratio " ++ a
  | none => base

/-- Result of the wardrobe generate_image: the returned text, the state after
the call, the assembled content parts, and which prompt branch was taken. -/
structure WardrobeGenResult where
  message : String
  state : ToolState
  request_parts : List GenPart
  used_faithful_prompt : Bool
  deriving DecidableEq

/-- The wardrobe generate_image
(src/wardrobe_design_agent/tools/post_creator_tool.py lines 102-191): resolve
the reference (falling back to the latest upload when the input is unset or
"latest"), pick the faithful-reproduction prompt when a reference loaded and
the regular prompt otherwise, allocate the versioned filename, stream; on an
image chunk save it and record the store version; any raised call, the save
included, reaches the outer handler, which returns explicit error text. -/
def wardrobe_generate_image (st : ToolState) (inputs : GenerateImageInput)
    (model : ModelOutcome) (save : SaveOutcome) : WardrobeGenResult :=
  match model with
  | .raise e =>
    { message := "❌ Error: " ++ e, state := st, request_parts := []
      used_faithful_prompt := false }
  | .stream _ chunks =>
    let reference_image_part := wardrobeReferencePart st inputs.reference_image_filename
    let prompt :=
      match reference_image_part with
      | some _ => wardrobeFaithfulPrompt inputs.prompt inputs.aspect_ratio
      | none => wardrobeRegularPrompt inputs.prompt inputs.aspect_ratio
    let content_parts := [GenPart.text prompt] ++
      (match reference_image_part with
       | some i => [GenPart.image i]
       | none => [])
    let version := get_next_version_number st.ledger inputs.asset_name
    let artifact_filename := create_versioned_filename inputs.asset_name version
    match firstImage chunks with
    | some img =>
      match save with
      | .ok v =>
        { message := "✅ Faithful reproduction generated: " ++ artifact_filename ++
            " (v" ++ toString v ++ ")"
          state :=
            { st with
                artifacts := setKey st.artifacts artifact_filename img
                ledger := update_asset_version st.ledger inputs.asset_name v artifact_filename
                last_generated_image := some artifact_filename }
          request_parts := content_parts
          used_faithful_prompt := reference_image_part.isSome }
      | .err e =>
        { message := "❌ Error: " ++ e, state := st, request_parts := content_parts
          used_faithful_prompt := reference_image_part.isSome }
    | none =>
      { message := "❌ No image was generated", state := st, request_parts := content_parts
        used_faithful_prompt := reference_image_part.isSome }

/-- Record through the ledger's own allocation discipline: the version recorded
is the one get_next_version_number allocated, as in the confirmed-save path of
generate_image when the store confirms the allocated version. -/
def recordNext (st : LedgerState) (asset_name : String) : LedgerState :=
  let v := get_next_version_number st asset_name
  update_asset_version st asset_name v (create_versioned_filename asset_name v)

/-- n successive disciplined record calls for one asset. -/
def recordSeq (st : LedgerState) (asset_name : String) : Nat → LedgerState
  | 0 => st
  | n + 1 => recordNext (recordSeq st asset_name n) asset_name

/-- The history the spec describes for an asset after n successful records:
versions 1..n in insertion order, each with its versioned filename. -/
def versionEntries (asset_name : String) : Nat → List (Int × String)
  | 0 => []
  | n + 1 => versionEntries asset_name n ++
      [((n : Int) + 1, create_versioned_filename asset_name ((n : Int) + 1))]

theorem lookupKey_setKey_self {α : Type} (m : List (String × α)) (k : String) (v : α) :
    lookupKey (setKey m k v) k = some v := by
  induction m with
  | nil => simp [setKey, lookupKey]
  | cons p rest ih =>
    obtain ⟨k1, v1⟩ := p
    by_cases h : k1 = k
    · simp [setKey, lookupKey, h]
    · simp [setKey, lookupKey, h, ih]

theorem currentVersion_update (st : LedgerState) (a : String) (v : Int) (f : String) :
    currentVersion (update_asset_version st a v f) a = v := by
  simp [currentVersion, update_asset_version, lookupKey_setKey_self]

theorem historyOf_update (st : LedgerState) (a : String) (v : Int) (f : String) :
    historyOf (update_asset_version st a v f) a = historyOf st a ++ [(v, f)] := by
  simp [historyOf, update_asset_version, lookupKey_setKey_self]

theorem currentVersion_recordSeq (st : LedgerState) (a : String)
    (h : lookupKey st.asset_versions a = none) (n : Nat) :
    currentVersion (recordSeq st a n) a = (n : Int) := by
  induction n with
  | zero => simp [recordSeq, currentVersion, h]
  | succ n ih =>
    have hnext : get_next_version_number (recordSeq st a n) a = (n : Int) + 1 := by
      unfold currentVersion at ih
      unfold get_next_version_number
      rw [ih]
    have h2 : currentVersion (recordSeq st a (n + 1)) a = (n : Int) + 1 := by
      simp [recordSeq, recordNext, hnext, currentVersion_update]
    rw [h2]
    omega

theorem historyOf_recordSeq (st : LedgerState) (a : String)
    (hv : lookupKey st.asset_versions a = none)
    (hh : lookupKey st.histories a = none) (n : Nat) :
    historyOf (recordSeq st a n) a = versionEntries a n := by
  induction n with
  | zero => simp [recordSeq, versionEntries, historyOf, hh]
  | succ n ih =>
    have hc : get_next_version_number (recordSeq st a n) a = (n : Int) + 1 := by
      have hcv := currentVersion_recordSeq st a hv n
      unfold currentVersion at hcv
      unfold get_next_version_number
      rw [hcv]
    simp [recordSeq, recordNext, hc, historyOf_update, ih, versionEntries]

/-- C5: get_next_version_number returns current_version + 1, returns 1 for an
asset name that was never recorded, leaves the session state unchanged (the
source performs no writes), and calling it twice with no record in between
returns the same value both times. -/
theorem c5_next_version_contract (st : LedgerState) (a : String) :
    (get_next_version_number_call st a).1 = currentVersion st a + 1 ∧
    (lookupKey st.asset_versions a = none → (get_next_version_number_call st a).1 = 1) ∧
    (get_next_version_number_call st a).2 = st ∧
    (get_next_version_number_call (get_next_version_number_call st a).2 a).1 =
      (get_next_version_number_call st a).1 := by
  refine ⟨rfl, ?_, rfl, rfl⟩
  intro h
  simp [get_next_version_number_call, get_next_version_number, h]

/-- C4 counterexample: update_asset_version validates nothing, so one
successful record call recording version 7 leaves current_version = 7 — not
the record-call count 1 — and a history whose single entry is version 7, not
versions 1..1. -/
theorem c4_counterexample :
    currentVersion (update_asset_version emptyLedger "poster" 7 "poster_v7.png") "poster" = 7 ∧
    (historyOf (update_asset_version emptyLedger "poster" 7 "poster_v7.png") "poster").map
      Prod.fst = [7] ∧
    currentVersion (update_asset_version emptyLedger "poster" 7 "poster_v7.png") "poster" ≠ 1 := by
  refine ⟨rfl, rfl, by decide⟩

/-- C4 amended: when every record call passes the version the ledger itself
allocated (current_version + 1, as generate_image does on a confirmed save
that returns the allocated version), then after n such calls for an asset
unknown to the starting ledger, current_version equals the call count n, the
history is exactly the n entries with versions 1..n in insertion order, and
current_version equals the version of the last history entry. -/
theorem c4_disciplined_records (st : LedgerState) (a : String) (n : Nat)
    (hv : lookupKey st.asset_versions a = none)
    (hh : lookupKey st.histories a = none) :
    currentVersion (recordSeq st a n) a = (n : Int) ∧
    historyOf (recordSeq st a n) a = versionEntries a n ∧
    (historyOf (recordSeq st a n) a).map Prod.fst =
      (List.range n).map (fun i => (i : Int) + 1) ∧
    (n ≠ 0 →
      ((historyOf (recordSeq st a n) a).getLast?).map Prod.fst =
        some (currentVersion (recordSeq st a n) a)) := by
  have hcur := currentVersion_recordSeq st a hv n
  have hhist := historyOf_recordSeq st a hv hh n
  have hmap : ∀ m : Nat, (versionEntries a m).map Prod.fst =
      (List.range m).map (fun i => (i : Int) + 1) := by
    intro m
    induction m with
    | zero => simp [versionEntries]
    | succ m ih => simp [versionEntries, List.range_succ, ih]
  refine ⟨hcur, hhist, by rw [hhist]; exact hmap n, ?_⟩
  intro hn
  rw [hhist, hcur]
  obtain ⟨m, rfl⟩ := Nat.exists_eq_succ_of_ne_zero hn
  simp [versionEntries]

/-- C4 witness: three disciplined record calls from the empty ledger. -/
theorem c4_disciplined_records_witness :
    currentVersion (recordSeq emptyLedger "post" 3) "post" = (3 : Int) ∧
    historyOf (recordSeq emptyLedger "post" 3) "post" = versionEntries "post" 3 ∧
    (historyOf (recordSeq emptyLedger "post" 3) "post").map Prod.fst =
      (List.range 3).map (fun i => (i : Int) + 1) ∧
    (3 ≠ 0 →
      ((historyOf (recordSeq emptyLedger "post" 3) "post").getLast?).map Prod.fst =
        some (currentVersion (recordSeq emptyLedger "post" 3) "post")) :=
  c4_disciplined_records emptyLedger "post" 3 rfl rfl

/-- A per-pass oracle in which the LoopControlAgent always answers continue:
the review keeps finding problems and the verdict asks for another pass. -/
def continueOracle : PassOracle :=
  { captured_prompt := "make a red poster"
    gen_filename := some "marketing_post_v1.png"
    review :=
      { adheres_to_request := false
        visual_appeal := false
        obvious_issues := true
        typos_in_text := false
        feedback_addressed := false
        specific_issues := ["wrong color"]
        improvement_suggestions := ["make it red"] }
    decision := .structured { should_continue := true, reason := "needs improvement" } }

/-- C1 (code bug): from a fresh session, with the Loop Control verdict saying
continue on every pass, the loop runs all 5 structural passes with no
escalation — a 5th policy iteration executes. deep_think_iteration is
initialized to 0 and never incremented, so every pass dispatches on 0 and the
iteration_count >= 4 cap of LoopTerminationAgent never fires; only the
LoopAgent wrapper bound of 5 stops the run. -/
theorem c1_cap_never_fires :
    (deepThinkRun initialSession (List.replicate 5 continueOracle)).2.map
      PassTrace.dispatch = [0, 0, 0, 0, 0] ∧
    (deepThinkRun initialSession (List.replicate 5 continueOracle)).2.map
      PassTrace.escalated = [false, false, false, false, false] ∧
    ((deepThinkRun initialSession (List.replicate 5 continueOracle)).2.length = 5) ∧
    (deepThinkRun initialSession (List.replicate 5 continueOracle)).1.deep_think_iteration =
      PyVal.val 0 := by
  exact ⟨rfl, rfl, rfl, rfl⟩

/-- C3 (code bug): on the very first pass of a fresh deep-think run the
generation stage dispatches on deep_think_iteration = 0, not 1, so the
ContentGenAgent rule selects edit_image (EDIT) instead of generate_image
(CREATE); the rule itself would select CREATE had the counter held 1. -/
theorem c3_first_pass_dispatch :
    (runPass initialSession continueOracle).2.dispatch = 0 ∧
    (runPass initialSession continueOracle).2.mode = GenMode.edit ∧
    genDispatch 1 = GenMode.create := by
  exact ⟨rfl, rfl, rfl⟩

/-- C2: whenever the termination agent takes the TERMINATE branch (escalates),
the five deep-think-scoped keys are reset to their initial values —
deep_think_mode false, the iteration counter zero, and the captured prompt,
content_review and loop_decision emptied — and the next invocation's
preparation step computes the same counter and cleared review it computes
from a completely fresh session. -/
theorem terminationStep_eq (st : SessionState) :
    terminationStep st =
      if (terminationDecision st.loop_decision
          (st.deep_think_iteration.getIntD 0)).should_continue then (st, false)
      else
        ({ st with
            deep_think_mode := .val false
            deep_think_iteration := .val 0
            original_deep_think_prompt := .pynone
            content_review := .pynone
            loop_decision := .pynone }, true) := rfl

theorem c2_terminate_resets (st : SessionState)
    (h : (terminationStep st).2 = true) :
    (terminationStep st).1.deep_think_mode = PyVal.val false ∧
    (terminationStep st).1.deep_think_iteration = PyVal.val 0 ∧
    (terminationStep st).1.original_deep_think_prompt = PyVal.pynone ∧
    (terminationStep st).1.content_review = PyVal.pynone ∧
    (terminationStep st).1.loop_decision = PyVal.pynone ∧
    (prepStep (terminationStep st).1).deep_think_iteration =
      (prepStep initialSession).deep_think_iteration ∧
    (prepStep (terminationStep st).1).content_review =
      (prepStep initialSession).content_review := by
  rw [terminationStep_eq] at h ⊢
  by_cases hd : (terminationDecision st.loop_decision
      (st.deep_think_iteration.getIntD 0)).should_continue = true
  · rw [if_pos hd] at h
    simp at h
  · rw [if_neg hd]
    refine ⟨rfl, rfl, rfl, rfl, rfl, ?_, ?_⟩ <;>
      simp [prepStep, PyVal.intTruthy, PyVal.getIntD, PyVal.unitTruthy, initialSession,
        apply_ite SessionState.deep_think_iteration, apply_ite SessionState.content_review,
        apply_ite SessionState.previous_feedback]

/-- A session in which the Loop Control stage has just delivered a structured
stop verdict, so the termination agent escalates. -/
def terminatedExample : SessionState :=
  { initialSession with
      loop_decision := .val (.structured { should_continue := false, reason := "content ready" }) }

/-- C2 witness: the reset observed after a concrete policy-driven stop. -/
theorem c2_terminate_resets_witness :
    (terminationStep terminatedExample).1.deep_think_iteration = PyVal.val 0 ∧
    (terminationStep terminatedExample).1.loop_decision = PyVal.pynone :=
  ⟨(c2_terminate_resets terminatedExample (by decide)).2.1,
   (c2_terminate_resets terminatedExample (by decide)).2.2.2.2.1⟩

/-- A loop_decision value is malformed when it is absent, None, not a
structured LoopDecision, and not a dict carrying a should_continue key. -/
def malformedDecision : PyVal DecisionVal → Bool
  | .val (.structured _) => false
  | .val (.dict (some _) _) => false
  | _ => true

/-- C8: with loop_decision absent or malformed, the termination agent defaults
to should_continue = true (the loop continues) rather than failing — unless
the iteration-cap check independently forces a stop at iteration_count >= 4. -/
theorem c8_default_continue (loop_decision : PyVal DecisionVal)
    (iteration_count : Int) (hm : malformedDecision loop_decision = true) :
    (iteration_count < 4 →
      (terminationDecision loop_decision iteration_count).should_continue = true) ∧
    (iteration_count ≥ 4 →
      (terminationDecision loop_decision iteration_count).should_continue = false) := by
  constructor
  · intro hlt
    have hnot : ¬ (iteration_count ≥ 4) := by omega
    simp only [terminationDecision, if_neg hnot]
    cases loop_decision with
    | absent => rfl
    | pynone => rfl
    | val v =>
      cases v with
      | structured d => simp [malformedDecision] at hm
      | dict sc r =>
        cases sc with
        | none => rfl
        | some b => simp [malformedDecision] at hm
      | otherVal => rfl
  · intro hge
    simp only [terminationDecision, if_pos hge]

/-- C8 witness: a missing decision at iteration_count 0 yields continue. -/
theorem c8_default_continue_witness :
    (terminationDecision PyVal.absent 0).should_continue = true :=
  (c8_default_continue PyVal.absent 0 rfl).1 (by decide)

/-- C6 counterexample: when the model call raises, generate_image returns the
empty string — a silent empty value, not an explicit failure result — so the
claim that every failing call returns an explicit failure result is false for
the raised-call case. State is unchanged, as the claim also requires. -/
theorem c6_counterexample :
    (generate_image initialToolState { prompt := "red poster" }
      (.raise "model unavailable") (.ok 0)).message = "" ∧
    (generate_image initialToolState { prompt := "red poster" }
      (.raise "model unavailable") (.ok 0)).state = initialToolState :=
  ⟨rfl, rfl⟩

/-- C6 amended: an imageless stream yields the explicit text "No image was
generated" with the whole session state — the version ledger and the
last-generated pointer included — unchanged; a store-write failure yields
explicit error text with the ledger and pointer unchanged; but a raised model
call yields the empty string (state unchanged), not an explicit failure
result. -/
theorem c6_failure_paths (st : ToolState) (gi : GenerateImageInput)
    (rewritten : String) (chunks : List Chunk) (save : SaveOutcome) :
    (firstImage chunks = none →
      (generate_image st gi (.stream rewritten chunks) save).message =
        "No image was generated" ∧
      (generate_image st gi (.stream rewritten chunks) save).state = st) ∧
    (∀ i e, firstImage chunks = some i → save = .err e →
      (generate_image st gi (.stream rewritten chunks) save).message =
        "Error saving generated image as artifact: " ++ e ∧
      (generate_image st gi (.stream rewritten chunks) save).state.ledger = st.ledger ∧
      (generate_image st gi (.stream rewritten chunks) save).state.last_generated_image =
        st.last_generated_image) ∧
    (∀ m, (generate_image st gi (.raise m) save).message = "" ∧
      (generate_image st gi (.raise m) save).state = st) := by
  refine ⟨?_, ?_, ?_⟩
  · intro hfi
    simp [generate_image, hfi]
  · rintro i e hfi rfl
    simp [generate_image, hfi]
  · intro m
    exact ⟨rfl, rfl⟩

/-- C6 witness: the two explicit failure outcomes at concrete inputs. -/
theorem c6_failure_paths_witness :
    (generate_image initialToolState { prompt := "red poster" }
      (.stream "a red poster" [Chunk.text "still thinking"]) (.ok 0)).message =
      "No image was generated" ∧
    (generate_image initialToolState { prompt := "red poster" }
      (.stream "a red poster" [Chunk.image 7]) (.err "disk full")).message =
      "Error saving generated image as artifact: disk full" :=
  ⟨((c6_failure_paths initialToolState { prompt := "red poster" } "a red poster"
      [Chunk.text "still thinking"] (.ok 0)).1 rfl).1,
   ((c6_failure_paths initialToolState { prompt := "red poster" } "a red poster"
      [Chunk.image 7] (.err "disk full")).2.1 7 "disk full" rfl rfl).1⟩

/-- C7: in every generate_image and edit_image call, a record event is only
ever issued after a save of the same filename and version was confirmed
earlier in the call, and on a store-write failure the version ledger is not
advanced and the failure is reported as explicit error text. -/
theorem c7_record_after_save (st : ToolState) (gi : GenerateImageInput)
    (ei : EditImageInput) (model : ModelOutcome) (save : SaveOutcome) :
    recordsJustified [] (generate_image st gi model save).events = true ∧
    recordsJustified [] (edit_image st ei model save).events = true ∧
    (∀ e, save = .err e →
      (generate_image st gi model save).state.ledger = st.ledger ∧
      (edit_image st ei model save).state.ledger = st.ledger) ∧
    (∀ e rewritten chunks i, save = .err e → model = .stream rewritten chunks →
      firstImage chunks = some i →
      (generate_image st gi model save).message =
        "Error saving generated image as artifact: " ++ e) ∧
    (∀ e rewritten chunks i part, save = .err e → model = .stream rewritten chunks →
      lookupKey st.artifacts ei.artifact_filename = some part →
      firstImage chunks = some i →
      (edit_image st ei model save).message =
        "Error saving edited image as artifact: " ++ e) := by
  refine ⟨?_, ?_, ?_, ?_, ?_⟩
  · cases model with
    | raise m => simp [generate_image, recordsJustified]
    | stream rewritten chunks =>
      rcases hfi : firstImage chunks with _ | i
      · simp [generate_image, hfi, recordsJustified]
      · cases save with
        | ok v => simp [generate_image, hfi, recordsJustified]
        | err e => simp [generate_image, hfi, recordsJustified]
  · rcases hlk : lookupKey st.artifacts ei.artifact_filename with _ | part
    · simp [edit_image, hlk, recordsJustified]
    · cases model with
      | raise m => simp [edit_image, hlk, recordsJustified]
      | stream rewritten chunks =>
        rcases hfi : firstImage chunks with _ | i
        · simp [edit_image, hlk, hfi, recordsJustified]
        · cases save with
          | ok v => simp [edit_image, hlk, hfi, recordsJustified]
          | err e => simp [edit_image, hlk, hfi, recordsJustified]
  · rintro e rfl
    constructor
    · cases model with
      | raise m => rfl
      | stream rewritten chunks =>
        rcases hfi : firstImage chunks with _ | i
        · simp [generate_image, hfi]
        · simp [generate_image, hfi]
    · rcases hlk : lookupKey st.artifacts ei.artifact_filename with _ | part
      · simp [edit_image, hlk]
      · cases model with
        | raise m => simp [edit_image, hlk]
        | stream rewritten chunks =>
          rcases hfi : firstImage chunks with _ | i
          · simp [edit_image, hlk, hfi]
          · simp [edit_image, hlk, hfi]
  · rintro e rewritten chunks i rfl rfl hfi
    simp [generate_image, hfi]
  · rintro e rewritten chunks i part rfl rfl hlk hfi
    simp [edit_image, hlk, hfi]

/-- A session that already holds one generated artifact, so edit_image can
load it. -/
def editableExampleState : ToolState :=
  { initialToolState with artifacts := [("marketing_post_v1.png", 5)] }

/-- C7 witness: a confirmed save precedes the record on the success path, a
failed save leaves the ledger untouched, and both tools report a failed save
as explicit error text, at concrete inputs. -/
theorem c7_record_after_save_witness :
    recordsJustified [] (generate_image initialToolState { prompt := "p" }
      (.stream "p detailed" [Chunk.image 3]) (.ok 1)).events = true ∧
    (generate_image initialToolState { prompt := "p" }
      (.stream "p detailed" [Chunk.image 3]) (.err "disk full")).state.ledger =
      initialToolState.ledger ∧
    (edit_image editableExampleState
      { artifact_filename := "marketing_post_v1.png", prompt := "q" }
      (.stream "p detailed" [Chunk.image 3]) (.err "disk full")).message =
      "Error saving edited image as artifact: disk full" :=
  ⟨(c7_record_after_save initialToolState { prompt := "p" }
      { artifact_filename := "a.png", prompt := "q" }
      (.stream "p detailed" [Chunk.image 3]) (.ok 1)).1,
   ((c7_record_after_save initialToolState { prompt := "p" }
      { artifact_filename := "a.png", prompt := "q" }
      (.stream "p detailed" [Chunk.image 3]) (.err "disk full")).2.2.1
      "disk full" rfl).1,
   (c7_record_after_save editableExampleState { prompt := "p" }
      { artifact_filename := "marketing_post_v1.png", prompt := "q" }
      (.stream "p detailed" [Chunk.image 3]) (.err "disk full")).2.2.2.2
      "disk full" "p detailed" [Chunk.image 3] 3 5 rfl rfl rfl rfl⟩

/-- C9: after two reference uploads in sequence, the "latest" token resolves to
the second upload and loads its image, while naming the first upload's
explicit filename still resolves to and loads the first image. -/
theorem c9_latest_resolution (img1 img2 : Img) (v1 v2 : Int) :
    (process_reference_images_callback
      (process_reference_images_callback initialToolState
        [.imagePart "image/png" img1] v1)
      [.imagePart "image/jpeg" img2] v2).latest_reference_image =
        some "reference_image_v2.png" ∧
    resolveReferencePart
      (process_reference_images_callback
        (process_reference_images_callback initialToolState
          [.imagePart "image/png" img1] v1)
        [.imagePart "image/jpeg" img2] v2) (some "latest") = some img2 ∧
    resolveReferencePart
      (process_reference_images_callback
        (process_reference_images_callback initialToolState
          [.imagePart "image/png" img1] v1)
        [.imagePart "image/jpeg" img2] v2) (some "reference_image_v1.png") = some img1 := by
  refine ⟨?_, ?_, ?_⟩ <;> with_unfolding_all rfl

/-- C10: in the wardrobe variant, a generate_image call whose
reference_image_filename is unset (None or empty) falls back to the latest
uploaded reference image: when one is recorded and its artifact loads, the
resolved reference is that image, the faithful-reproduction prompt is chosen,
and the image is attached to the model request. -/
theorem c10_wardrobe_fallback (st : ToolState) (gi : GenerateImageInput)
    (rewritten : String) (chunks : List Chunk) (save : SaveOutcome)
    (f : String) (img : Img)
    (hunset : optStrTruthy gi.reference_image_filename = false)
    (hlatest : st.latest_reference_image = some f)
    (hne : f ≠ "")
    (hload : lookupKey st.artifacts f = some img) :
    wardrobeReferencePart st gi.reference_image_filename = some img ∧
    (wardrobe_generate_image st gi (.stream rewritten chunks) save).used_faithful_prompt =
      true ∧
    (wardrobe_generate_image st gi (.stream rewritten chunks) save).request_parts =
      [GenPart.text (wardrobeFaithfulPrompt gi.prompt gi.aspect_ratio),
       GenPart.image img] := by
  have hres : wardrobeResolveRef st gi.reference_image_filename = some f := by
    simp only [wardrobeResolveRef]
    rw [if_pos (Or.inr hunset)]
    exact hlatest
  have hpart : wardrobeReferencePart st gi.reference_image_filename = some img := by
    simp only [wardrobeReferencePart]
    rw [hres]
    simp [optStrTruthy, hne, hload]
  refine ⟨hpart, ?_, ?_⟩
  · rcases hfi : firstImage chunks with _ | i
    · simp [wardrobe_generate_image, hfi, hpart]
    · cases save with
      | ok v => simp [wardrobe_generate_image, hfi, hpart]
      | err e => simp [wardrobe_generate_image, hfi, hpart]
  · rcases hfi : firstImage chunks with _ | i
    · simp [wardrobe_generate_image, hfi, hpart]
    · cases save with
      | ok v => simp [wardrobe_generate_image, hfi, hpart]
      | err e => simp [wardrobe_generate_image, hfi, hpart]

/-- A wardrobe session that has auto-stored one uploaded reference image. -/
def wardrobeExampleState : ToolState :=
  auto_store_reference_images initialToolState
    [.imagePart "image/jpeg" 42] (fun _ => "abc12345") 1700000000

/-- C10 witness: a call that omits the reference parameter after one upload. -/
theorem c10_wardrobe_fallback_witness :
    wardrobeReferencePart wardrobeExampleState none = some 42 ∧
    (wardrobe_generate_image wardrobeExampleState { prompt := "silk jacket" }
      (.stream "p" []) (.ok 0)).used_faithful_prompt = true ∧
    (wardrobe_generate_image wardrobeExampleState { prompt := "silk jacket" }
      (.stream "p" []) (.ok 0)).request_parts =
      [GenPart.text (wardrobeFaithfulPrompt "silk jacket" (some "1:1")),
       GenPart.image 42] :=
  c10_wardrobe_fallback wardrobeExampleState { prompt := "silk jacket" } "p" [] (.ok 0)
    "reference_abc12345_1700000000.jpg" 42 rfl rfl (by decide) rfl
